import Mathlib

/-!
Verification of the webhook module of the ezunsub Python SDK
(`src/ezunsub/webhook.py`), as a shallow embedding in Lean 4.

Modelling conventions:
* Python `str` is Lean `String`; Python slicing/startswith are modelled
  character-wise via `.data` (`strDrop`, `strStartsWith`).
* Python `int` is Lean `Int` (unbounded in both languages).
* The wall clock read `int(time.time())` is an explicit `now : Int` argument.
* The two stdlib cryptographic primitives are external to the repository:
  `hmac.new(..., hashlib.sha256).hexdigest()` is an abstract parameter
  `hm : String → String → String` (key, message ↦ lowercase-hex digest),
  and `hmac.compare_digest` is modelled by `compare_digest` below, following
  CPython's `_tscmp` algorithm (full scan, no early exit).
* `json.loads` is likewise an abstract parameter
  `jl : String → Except String JsonValue` (error carries the decode message).
* Python exceptions become `Except` errors; the distinct `ValueError`
  messages (and `TypeError` / `KeyError`) become constructors of
  `VerifyError`.
-/

/-- JSON values as produced by `json.loads`; numbers are restricted to
integers, which is all the webhook payloads in scope use. Objects keep
their fields as an ordered association list; a later binding of the same
key shadows an earlier one, matching `json.loads` building a `dict`. -/
inductive JsonValue : Type where
  | null : JsonValue
  | bool (b : Bool) : JsonValue
  | num (n : Int) : JsonValue
  | str (s : String) : JsonValue
  | arr (xs : List JsonValue) : JsonValue
  | obj (fields : List (String × JsonValue)) : JsonValue

/-- Python `s[n:]` — character-based slicing. -/
def strDrop (s : String) (n : Nat) : String := ⟨s.data.drop n⟩

/-- Python `s.startswith(p)`. -/
def strStartsWith (s p : String) : Bool := p.data.isPrefixOf s.data

/-- Python `s.lower()`, restricted to ASCII letters (all header names in
scope are ASCII). -/
def strLower (s : String) : String := ⟨s.data.map Char.toLower⟩

/-- The scan at the heart of CPython's `hmac.compare_digest` (`_tscmp`):
walk both buffers to the end of the shorter, OR-accumulating the XOR of
each character pair; returns the accumulator and the number of scan steps
performed. There is no early exit on mismatch. -/
def ct_scan : Nat → List Char → List Char → Nat × Nat
  | acc, [], _ => (acc, 0)
  | acc, _, [] => (acc, 0)
  | acc, x :: xs, y :: ys =>
    let r := ct_scan (acc ||| (x.toNat ^^^ y.toNat)) xs ys
    (r.1, r.2 + 1)

/-- Python `hmac.compare_digest(a, b)` on ASCII strings, following CPython's
`_tscmp`: if the lengths differ the accumulator starts at 1 and the scan
runs over `b` against itself, so the scan length never depends on where the
inputs first differ. -/
def compare_digest (a b : String) : Bool :=
  let left := if a.data.length = b.data.length then a.data else b.data
  let init : Nat := if a.data.length = b.data.length then 0 else 1
  (ct_scan init left b.data).1 == 0

/-- The number of scan steps `compare_digest a b` performs. -/
def compare_digest_steps (a b : String) : Nat :=
  let left := if a.data.length = b.data.length then a.data else b.data
  let init : Nat := if a.data.length = b.data.length then 0 else 1
  (ct_scan init left b.data).2

/-- The verifier's configuration: `WebhookVerifier.__init__` stores the
shared secret and the replay-window tolerance (default 300 s). -/
structure WebhookVerifier : Type where
  secret : String
  max_age_seconds : Int

/-- `WebhookVerifier.verify_signature`. `hm` stands for
`hmac.new(secret, ·, sha256).hexdigest()` and `now` for `int(time.time())`;
everything else is a line-by-line translation of the source:
reject when `abs(now - timestamp) > max_age_seconds`, build the message
`f"{timestamp}.{body}"`, strip an optional `sha256=` prefix from the
signature, and compare with `hmac.compare_digest`. -/
def verify_signature (hm : String → String → String) (v : WebhookVerifier)
    (now : Int) (signature : String) (timestamp : Int) (body : String) : Bool :=
  if |now - timestamp| > v.max_age_seconds then false
  else
    let message := toString timestamp ++ "." ++ body
    let expected := hm v.secret message
    let sig_value :=
      if strStartsWith signature "sha256=" then strDrop signature 7 else signature
    compare_digest expected sig_value

/- ### Lemmas about the constant-time comparison -/

theorem ct_scan_steps (acc : Nat) (xs ys : List Char) :
    (ct_scan acc xs ys).2 = min xs.length ys.length := by
  induction xs generalizing acc ys with
  | nil => cases ys <;> simp [ct_scan]
  | cons x xs ih =>
    cases ys with
    | nil => simp [ct_scan]
    | cons y ys =>
      simp [ct_scan, ih, Nat.succ_min_succ]

theorem nat_or_eq_zero {x y : Nat} : x ||| y = 0 ↔ x = 0 ∧ y = 0 := by
  constructor
  · intro h
    constructor
    · refine Nat.eq_of_testBit_eq fun i => ?_
      have := congrArg (fun n => Nat.testBit n i) h
      simp only [Nat.testBit_or, Nat.zero_testBit, Bool.or_eq_false_iff] at this
      simp [this.1]
    · refine Nat.eq_of_testBit_eq fun i => ?_
      have := congrArg (fun n => Nat.testBit n i) h
      simp only [Nat.testBit_or, Nat.zero_testBit, Bool.or_eq_false_iff] at this
      simp [this.2]
  · rintro ⟨rfl, rfl⟩
    simp

theorem char_toNat_inj {c d : Char} (h : c.toNat = d.toNat) : c = d := by
  have := congrArg Char.ofNat h
  simpa [Char.ofNat_toNat] using this

theorem ct_scan_fst_eq_zero (acc : Nat) (xs ys : List Char)
    (hlen : xs.length = ys.length) :
    (ct_scan acc xs ys).1 = 0 ↔ acc = 0 ∧ xs = ys := by
  induction xs generalizing acc ys with
  | nil =>
    cases ys with
    | nil => simp [ct_scan]
    | cons y ys => simp at hlen
  | cons x xs ih =>
    cases ys with
    | nil => simp at hlen
    | cons y ys =>
      have hlen' : xs.length = ys.length := by simpa using hlen
      simp only [ct_scan, ih _ _ hlen', nat_or_eq_zero, Nat.xor_eq_zero]
      constructor
      · rintro ⟨⟨h1, h2⟩, h3⟩
        exact ⟨h1, by simp [char_toNat_inj h2, h3]⟩
      · rintro ⟨h1, h2⟩
        have hx : x = y := by simpa using congrArg (fun l => l.headD x) h2
        have hxs : xs = ys := by simpa using congrArg List.tail h2
        exact ⟨⟨h1, by rw [hx]⟩, hxs⟩

theorem string_eq_iff_data {a b : String} : a = b ↔ a.data = b.data :=
  ⟨fun h => h ▸ rfl, fun h => by cases a; cases b; exact congrArg String.mk h⟩

theorem compare_digest_eq_true_iff (a b : String) :
    compare_digest a b = true ↔ a = b := by
  unfold compare_digest
  by_cases h : a.data.length = b.data.length
  · simp only [h, if_pos, beq_iff_eq, ct_scan_fst_eq_zero 0 a.data b.data h,
      string_eq_iff_data]
    tauto
  · simp only [if_neg h, beq_iff_eq]
    constructor
    · intro hz
      have : (1 : Nat) = 0 ∧ b.data = b.data :=
        (ct_scan_fst_eq_zero 1 b.data b.data rfl).mp hz
      exact absurd this.1 (by decide)
    · intro hab
      exact absurd (congrArg (fun s => s.data.length) hab) h

theorem compare_digest_steps_eq (a b : String) :
    compare_digest_steps a b = b.data.length := by
  simp only [compare_digest_steps, ct_scan_steps]
  by_cases h : a.data.length = b.data.length
  · rw [if_pos h, h, Nat.min_self]
  · rw [if_neg h, Nat.min_self]

/-- A string made of lowercase hexadecimal digits only — the shape of every
`hexdigest()` output. -/
def isLowerHex (s : String) : Bool :=
  s.data.all fun c => (decide ('0' ≤ c) && decide (c ≤ '9')) ||
    (decide ('a' ≤ c) && decide (c ≤ 'f'))

theorem hex_not_sha256_start {s : String} (h : isLowerHex s = true) :
    strStartsWith s "sha256=" = false := by
  unfold strStartsWith
  unfold isLowerHex at h
  rcases hd : s.data with _ | ⟨c, cs⟩
  · rfl
  · rw [hd] at h
    simp only [List.all_cons, Bool.and_eq_true] at h
    have hc := h.1
    have hcs : c ≠ 's' := by
      rintro rfl
      exact absurd hc (by decide)
    have hbeq : ('s' == c) = false :=
      beq_eq_false_iff_ne.mpr fun he => hcs he.symm
    show List.isPrefixOf ('s' :: "ha256=".data) (c :: cs) = false
    simp [List.isPrefixOf, hbeq]

theorem startsWith_sha256_append (s : String) :
    strStartsWith ("sha256=" ++ s) "sha256=" = true := by
  unfold strStartsWith
  rw [String.data_append]
  simp

theorem strDrop_sha256_append (s : String) : strDrop ("sha256=" ++ s) 7 = s := by
  cases s with
  | mk l =>
    show String.mk (List.drop 7 ("sha256=".data ++ l)) = ⟨l⟩
    rw [show (7 : Nat) = List.length "sha256=".data from rfl, List.drop_left]

theorem verify_signature_of_age_le (hm : String → String → String)
    (v : WebhookVerifier) (now ts : Int) (sig body : String)
    (hage : |now - ts| ≤ v.max_age_seconds) :
    verify_signature hm v now sig ts body =
      compare_digest (hm v.secret (toString ts ++ "." ++ body))
        (if strStartsWith sig "sha256=" then strDrop sig 7 else sig) := by
  unfold verify_signature
  rw [if_neg (not_lt.mpr hage)]

theorem verify_signature_stale (hm : String → String → String)
    (v : WebhookVerifier) (now ts : Int) (sig body : String)
    (hage : |now - ts| > v.max_age_seconds) :
    verify_signature hm v now sig ts body = false := by
  unfold verify_signature
  rw [if_pos hage]

theorem verify_signature_bare_digest (hm : String → String → String)
    (v : WebhookVerifier) (now ts : Int) (body : String)
    (hage : |now - ts| ≤ v.max_age_seconds)
    (hhex : isLowerHex (hm v.secret (toString ts ++ "." ++ body)) = true) :
    verify_signature hm v now (hm v.secret (toString ts ++ "." ++ body)) ts body
      = true := by
  rw [verify_signature_of_age_le hm v now ts _ body hage]
  rw [hex_not_sha256_start hhex]
  simp only [Bool.false_eq_true, if_false]
  rw [compare_digest_eq_true_iff]

/-- C1: within the tolerance window, `verify_signature` accepts exactly the
signatures that — after stripping an optional leading `sha256=` marker —
equal the digest `hm secret "{timestamp}.{body}"`; in particular the bare
digest and the `sha256=`-marked digest both verify (the digest being
lowercase hex, it cannot itself begin with `sha256=`). -/
theorem C1_verify_signature_roundtrip (hm : String → String → String)
    (v : WebhookVerifier) (now ts : Int) (sig body : String)
    (hage : |now - ts| ≤ v.max_age_seconds)
    (hhex : isLowerHex (hm v.secret (toString ts ++ "." ++ body)) = true) :
    (verify_signature hm v now sig ts body = true ↔
      (if strStartsWith sig "sha256=" then strDrop sig 7 else sig) =
        hm v.secret (toString ts ++ "." ++ body)) ∧
    verify_signature hm v now
      (hm v.secret (toString ts ++ "." ++ body)) ts body = true ∧
    verify_signature hm v now
      ("sha256=" ++ hm v.secret (toString ts ++ "." ++ body)) ts body = true := by
  refine ⟨?_, verify_signature_bare_digest hm v now ts body hage hhex, ?_⟩
  · rw [verify_signature_of_age_le hm v now ts sig body hage,
      compare_digest_eq_true_iff]
    exact eq_comm
  · rw [verify_signature_of_age_le hm v now ts _ body hage,
      startsWith_sha256_append, if_pos rfl, strDrop_sha256_append,
      compare_digest_eq_true_iff]

/-- Witness for C1 at a concrete input. -/
theorem C1_witness :
    (verify_signature (fun _ _ => "ab") ⟨"sec", 300⟩ 10 "sha256=ab" 5 "b" = true ↔
      (if strStartsWith "sha256=ab" "sha256=" then strDrop "sha256=ab" 7
        else "sha256=ab") = "ab") ∧
    verify_signature (fun _ _ => "ab") ⟨"sec", 300⟩ 10 "ab" 5 "b" = true ∧
    verify_signature (fun _ _ => "ab") ⟨"sec", 300⟩ 10 ("sha256=" ++ "ab") 5 "b"
      = true :=
  C1_verify_signature_roundtrip (fun _ _ => "ab") ⟨"sec", 300⟩ 10 5 "sha256=ab" "b"
    (by decide) (by decide)

/-- C2: any request whose timestamp is farther than `max_age_seconds` from
`now` is rejected no matter the signature; at the boundary, a correctly
signed request of age exactly `max_age_seconds` passes and one of age
`max_age_seconds + 1` fails. -/
theorem C2_replay_window (hm : String → String → String)
    (v : WebhookVerifier) (now ts : Int) (sig body : String)
    (hhex : isLowerHex (hm v.secret (toString ts ++ "." ++ body)) = true) :
    (|now - ts| > v.max_age_seconds →
      verify_signature hm v now sig ts body = false) ∧
    (|now - ts| = v.max_age_seconds →
      verify_signature hm v now
        (hm v.secret (toString ts ++ "." ++ body)) ts body = true) ∧
    (|now - ts| = v.max_age_seconds + 1 →
      verify_signature hm v now
        (hm v.secret (toString ts ++ "." ++ body)) ts body = false) := by
  refine ⟨fun h => verify_signature_stale hm v now ts sig body h, fun h => ?_, fun h => ?_⟩
  · exact verify_signature_bare_digest hm v now ts body (le_of_eq h) hhex
  · refine verify_signature_stale hm v now ts _ body ?_
    rw [h]
    exact lt_add_one v.max_age_seconds

/-- Witness for C2 at a concrete input. -/
theorem C2_witness :
    ((|(1000 : Int) - 100| > (⟨"sec", 300⟩ : WebhookVerifier).max_age_seconds →
      verify_signature (fun _ _ => "ab") ⟨"sec", 300⟩ 1000 "x" 100 "b" = false) ∧
    (|(1000 : Int) - 100| = (⟨"sec", 300⟩ : WebhookVerifier).max_age_seconds →
      verify_signature (fun _ _ => "ab") ⟨"sec", 300⟩ 1000 "ab" 100 "b" = true) ∧
    (|(1000 : Int) - 100| = (⟨"sec", 300⟩ : WebhookVerifier).max_age_seconds + 1 →
      verify_signature (fun _ _ => "ab") ⟨"sec", 300⟩ 1000 "ab" 100 "b" = false)) :=
  C2_replay_window (fun _ _ => "ab") ⟨"sec", 300⟩ 1000 100 "x" "b" (by decide)

/-- C4: within the tolerance window the comparison performed by
`verify_signature` is exactly `compare_digest` — the model of
`hmac.compare_digest`, not plain string equality — and the number of scan
steps `compare_digest` performs is determined by the digest lengths alone,
never by the position of the first mismatching character. -/
theorem C4_constant_time_comparison (hm : String → String → String)
    (v : WebhookVerifier) (now ts : Int) (sig body : String)
    (hage : |now - ts| ≤ v.max_age_seconds) :
    verify_signature hm v now sig ts body =
      compare_digest (hm v.secret (toString ts ++ "." ++ body))
        (if strStartsWith sig "sha256=" then strDrop sig 7 else sig) ∧
    (∀ a b a2 b2 : String, b.data.length = b2.data.length →
      compare_digest_steps a b = compare_digest_steps a2 b2) := by
  refine ⟨verify_signature_of_age_le hm v now ts sig body hage, ?_⟩
  intro a b a2 b2 h
  rw [compare_digest_steps_eq, compare_digest_steps_eq, h]

/-- Witness for C4 at a concrete input. -/
theorem C4_witness :
    verify_signature (fun _ _ => "ab") ⟨"sec", 300⟩ 10 "zz" 5 "b" =
      compare_digest "ab"
        (if strStartsWith "zz" "sha256=" then strDrop "zz" 7 else "zz") ∧
    (∀ a b a2 b2 : String, b.data.length = b2.data.length →
      compare_digest_steps a b = compare_digest_steps a2 b2) :=
  C4_constant_time_comparison (fun _ _ => "ab") ⟨"sec", 300⟩ 10 5 "zz" "b"
    (by decide)

/- ### The parsing layer: `verify_and_parse` and `extract_headers` -/

/-- Errors raised by the webhook module. Python raises `ValueError` with
distinct messages for the four `raise` sites plus the `int()` coercion;
`typeError` / `keyError` model the `TypeError` / `KeyError` that Python
membership and subscription raise on unsuitable `json.loads` results. -/
inductive VerifyError : Type where
  | intCoercion (s : String) : VerifyError
  | invalidSignature : VerifyError
  | invalidJson (diagnostic : String) : VerifyError
  | missingField (name : String) : VerifyError
  | missingHeader (name : String) : VerifyError
  | typeError : VerifyError
  | keyError (k : String) : VerifyError

/-- The human-readable message of each error, mirroring the Python `raise`
sites (the `int()` message omits Python's `repr` quoting of the literal). -/
def VerifyError.message : VerifyError → String
  | .intCoercion s => "invalid literal for int() with base 10: " ++ s
  | .invalidSignature => "Invalid webhook signature"
  | .invalidJson d => "Invalid JSON payload: " ++ d
  | .missingField f => "Missing \x27" ++ f ++ "\x27 field in payload"
  | .missingHeader h => "Missing " ++ h ++ " header"
  | .typeError => "argument of type is not iterable"
  | .keyError k => k

/-- The parsed webhook payload (`WebhookPayload` dataclass). The Python
class annotates `event` with a `Literal` type and `timestamp` with `str`,
but dataclasses do not enforce annotations at runtime: the constructor
stores whatever values the parsed JSON supplied, so the fields are
arbitrary `JsonValue`s here. -/
structure WebhookPayload : Type where
  event : JsonValue
  timestamp : JsonValue
  data : JsonValue
  delivery_id : String

/-- The known event names of the `WebhookEvent` literal type (documentation
only — nothing at runtime checks membership). -/
def knownEvents : List String :=
  ["contact.created", "contact.updated", "complaint.created",
   "complaint.updated", "link.created", "link.clicked",
   "export.completed", "test"]

/-- The `timestamp` argument of `verify_and_parse`, typed `str | int` in
Python. -/
inductive StrOrInt : Type where
  | int (n : Int) : StrOrInt
  | str (s : String) : StrOrInt

/-- ASCII decimal digit test. -/
def isAsciiDigit (c : Char) : Bool := decide ('0' ≤ c) && decide (c ≤ '9')

/-- Whitespace stripped by Python `int(str)` (ASCII portion). -/
def isPySpace (c : Char) : Bool :=
  c == ' ' || c == '\t' || c == '\n' || c == '\x0d' || c == '\x0b' || c == '\x0c'

/-- Digit-run tail for `int(str)`: after a digit, each further character is
a digit or a single underscore followed by a digit. -/
def parseDigitsAux : List Char → Nat → Option Nat
  | [], acc => some acc
  | c :: rest, acc =>
    if isAsciiDigit c then parseDigitsAux rest (acc * 10 + (c.toNat - 48))
    else if c == '_' then
      match rest with
      | [] => none
      | d :: rest2 =>
        if isAsciiDigit d then parseDigitsAux rest2 (acc * 10 + (d.toNat - 48))
        else none
    else none

/-- A nonempty digit run (underscores allowed between digits, Python
style). -/
def parseDigits : List Char → Option Nat
  | [] => none
  | c :: rest =>
    if isAsciiDigit c then parseDigitsAux rest (c.toNat - 48) else none

/-- Python `int(s)` for a decimal string: strip whitespace, optional sign,
then a digit run; `none` models the `ValueError` Python raises. -/
def pyIntOfString (s : String) : Option Int :=
  let t := ((s.data.dropWhile isPySpace).reverse.dropWhile isPySpace).reverse
  match t with
  | '-' :: rest => (parseDigits rest).map (fun n => -(n : Int))
  | '+' :: rest => (parseDigits rest).map (fun n => (n : Int))
  | rest => (parseDigits rest).map (fun n => (n : Int))

/-- The coercion `ts = int(timestamp) if isinstance(timestamp, str) else
timestamp` at the top of `verify_and_parse`; a non-numeric string makes
`int()` raise an uncontrolled `ValueError`. -/
def coerce_timestamp : StrOrInt → Except VerifyError Int
  | .int n => .ok n
  | .str s =>
    match pyIntOfString s with
    | some n => .ok n
    | none => .error (.intCoercion s)

/-- Last-wins association lookup: Python `dict` built from a key/value
sequence keeps the latest binding of each key, and `d.get(k)` returns it. -/
def pyDictGet {α : Type} : List (String × α) → String → Option α
  | [], _ => none
  | p :: rest, k =>
    match pyDictGet rest k with
    | some v => some v
    | none => if p.1 == k then some p.2 else none

/-- Python `k in d` for a dict: is the key bound at all. -/
def hasKey {α : Type} (fields : List (String × α)) (k : String) : Bool :=
  fields.any fun p => p.1 == k

/-- Substring occurrence, for Python `needle in s` on strings. -/
def hasSubstring : List Char → List Char → Bool
  | [], needle => needle.isEmpty
  | c :: t, needle => needle.isPrefixOf (c :: t) || hasSubstring t needle

/-- Python `k in data` where `data` came from `json.loads`: key membership
for a dict, element membership for a list, substring for a string, and a
`TypeError` for the non-container values. -/
def pyContains (k : String) : JsonValue → Except VerifyError Bool
  | .obj fields => .ok (hasKey fields k)
  | .arr xs => .ok (xs.any fun x => match x with | .str s => s == k | _ => false)
  | .str s => .ok (hasSubstring s.data k.data)
  | _ => .error .typeError

/-- Python `data[k]` where `data` came from `json.loads`. -/
def pyGetItem : JsonValue → String → Except VerifyError JsonValue
  | .obj fields, k =>
    match pyDictGet fields k with
    | some v => .ok v
    | none => .error (.keyError k)
  | _, _ => .error .typeError

/-- `WebhookVerifier.verify_and_parse`, line by line: coerce the timestamp,
verify the signature (raising `Invalid webhook signature` on failure
before the body is ever parsed), `json.loads` the body (`jl`), check the
three required top-level fields in order, and build the payload — the
delivery id comes from the argument, never from the body. -/
def verify_and_parse (hm : String → String → String)
    (jl : String → Except String JsonValue)
    (v : WebhookVerifier) (now : Int)
    (signature : String) (timestamp : StrOrInt) (body : String)
    (delivery_id : String) : Except VerifyError WebhookPayload :=
  match coerce_timestamp timestamp with
  | .error e => .error e
  | .ok ts =>
    if !(verify_signature hm v now signature ts body) then
      .error .invalidSignature
    else
      match jl body with
      | .error e => .error (.invalidJson e)
      | .ok data =>
        match pyContains "event" data with
        | .error e => .error e
        | .ok hasEvent =>
          if !hasEvent then .error (.missingField "event")
          else
            match pyContains "timestamp" data with
            | .error e => .error e
            | .ok hasTs =>
              if !hasTs then .error (.missingField "timestamp")
              else
                match pyContains "data" data with
                | .error e => .error e
                | .ok hasData =>
                  if !hasData then .error (.missingField "data")
                  else
                    match pyGetItem data "event" with
                    | .error e => .error e
                    | .ok ev =>
                      match pyGetItem data "timestamp" with
                      | .error e => .error e
                      | .ok tsv =>
                        match pyGetItem data "data" with
                        | .error e => .error e
                        | .ok dv => .ok ⟨ev, tsv, dv, delivery_id⟩

/-- Python `not x` for an `Optional[str]`: true when the value is `None` or
the empty string (both falsy). -/
def pyStrFalsy : Option String → Bool
  | none => true
  | some s => s == ""

/-- Python `a or dflt` for an `Optional[str]` left operand: the default is
used when the value is `None` or falsy (the empty string). -/
def pyOrElse (a : Option String) (dflt : String) : String :=
  match a with
  | none => dflt
  | some s => if s == "" then dflt else s

/-- The dict comprehension `{k.lower(): v for k, v in headers.items()}`;
`pyDictGet` on the result realizes the last-wins collision behaviour of a
Python dict built left to right. -/
def normalizeHeaders (headers : List (String × String)) : List (String × String) :=
  headers.map fun p => (strLower p.1, p.2)

/-- `WebhookVerifier.extract_headers`: lowercase the header names, require
truthy `x-webhook-signature` then `x-webhook-timestamp` (raising the
missing-header `ValueError` naming the one that failed, signature first),
and default the two optional headers to the empty string. -/
def extract_headers (headers : List (String × String)) :
    Except VerifyError (String × String × String × String) :=
  let normalized := normalizeHeaders headers
  let signature := pyDictGet normalized "x-webhook-signature"
  let timestamp := pyDictGet normalized "x-webhook-timestamp"
  let event := pyDictGet normalized "x-webhook-event"
  let delivery_id := (pyDictGet normalized "x-webhook-delivery-id").getD ""
  if pyStrFalsy signature then .error (.missingHeader "X-Webhook-Signature")
  else if pyStrFalsy timestamp then .error (.missingHeader "X-Webhook-Timestamp")
  else .ok (signature.getD "", timestamp.getD "", pyOrElse event "", delivery_id)

/- ### Helper lemmas for the parsing layer -/

theorem pyDictGet_none_of_hasKey_false {α : Type} (k : String) :
    ∀ (fields : List (String × α)),
      hasKey fields k = false → pyDictGet fields k = none
  | [], _ => rfl
  | p :: rest, h => by
    simp only [hasKey, List.any_cons, Bool.or_eq_false_iff] at h
    have h2 := pyDictGet_none_of_hasKey_false k rest
      (by simp only [hasKey]; exact h.2)
    simp [pyDictGet, h2, h.1]

theorem pyDictGet_some_hasKey {α : Type} {fields : List (String × α)}
    {k : String} {v : α} (h : pyDictGet fields k = some v) :
    hasKey fields k = true := by
  rcases hk : hasKey fields k with _ | _
  · rw [pyDictGet_none_of_hasKey_false k fields hk] at h
    cases h
  · rfl

theorem verify_and_parse_ok (hm : String → String → String)
    (jl : String → Except String JsonValue) (v : WebhookVerifier) (now : Int)
    (sig : String) (tsArg : StrOrInt) (body did : String) (n : Int)
    (fields : List (String × JsonValue)) (ev tv dv : JsonValue)
    (hco : coerce_timestamp tsArg = .ok n)
    (hv : verify_signature hm v now sig n body = true)
    (hj : jl body = .ok (.obj fields))
    (he : pyDictGet fields "event" = some ev)
    (ht : pyDictGet fields "timestamp" = some tv)
    (hd : pyDictGet fields "data" = some dv) :
    verify_and_parse hm jl v now sig tsArg body did = .ok ⟨ev, tv, dv, did⟩ := by
  simp [verify_and_parse, hco, hv, hj, pyContains, pyGetItem,
    pyDictGet_some_hasKey he, pyDictGet_some_hasKey ht, pyDictGet_some_hasKey hd,
    he, ht, hd]

/-- C3: `verify_and_parse` authenticates before it parses. If the signature
check fails the result is the `Invalid webhook signature` error for every
possible `json.loads` behaviour (the body is never parsed); if the check
passes and the body is invalid JSON the result is the JSON-parse-diagnostic
error, never the signature error; and an `.ok` payload is only ever
produced when `verify_signature` answered `true`. -/
theorem C3_auth_before_parse (hm : String → String → String)
    (v : WebhookVerifier) (now : Int) (sig : String) (tsArg : StrOrInt)
    (body did : String) (n : Int)
    (hco : coerce_timestamp tsArg = .ok n) :
    (verify_signature hm v now sig n body = false →
      ∀ jl, verify_and_parse hm jl v now sig tsArg body did =
        .error .invalidSignature) ∧
    (∀ jl e, verify_signature hm v now sig n body = true →
      jl body = .error e →
      verify_and_parse hm jl v now sig tsArg body did =
        .error (.invalidJson e) ∧ VerifyError.invalidJson e ≠ .invalidSignature) ∧
    (∀ jl p, verify_and_parse hm jl v now sig tsArg body did = .ok p →
      verify_signature hm v now sig n body = true) ∧
    VerifyError.invalidSignature.message = "Invalid webhook signature" := by
  refine ⟨?_, ?_, ?_, rfl⟩
  · intro hv jl
    simp [verify_and_parse, hco, hv]
  · intro jl e hv hj
    refine ⟨?_, by simp⟩
    simp [verify_and_parse, hco, hv, hj]
  · intro jl p hok
    rcases hv : verify_signature hm v now sig n body with _ | _
    · simp [verify_and_parse, hco, hv] at hok
    · rfl

/-- Witness for C3 at a concrete input. -/
theorem C3_witness :
    (verify_signature (fun _ _ => "ab") ⟨"sec", 300⟩ 10 "zz" 5 "b" = false →
      ∀ jl, verify_and_parse (fun _ _ => "ab") jl ⟨"sec", 300⟩ 10 "zz"
        (.int 5) "b" "d" = .error .invalidSignature) ∧
    (∀ jl e, verify_signature (fun _ _ => "ab") ⟨"sec", 300⟩ 10 "zz" 5 "b" = true →
      jl "b" = .error e →
      verify_and_parse (fun _ _ => "ab") jl ⟨"sec", 300⟩ 10 "zz"
        (.int 5) "b" "d" = .error (.invalidJson e) ∧
        VerifyError.invalidJson e ≠ .invalidSignature) ∧
    (∀ jl p, verify_and_parse (fun _ _ => "ab") jl ⟨"sec", 300⟩ 10 "zz"
      (.int 5) "b" "d" = .ok p →
      verify_signature (fun _ _ => "ab") ⟨"sec", 300⟩ 10 "zz" 5 "b" = true) ∧
    VerifyError.invalidSignature.message = "Invalid webhook signature" :=
  C3_auth_before_parse (fun _ _ => "ab") ⟨"sec", 300⟩ 10 "zz" (.int 5) "b" "d" 5
    rfl

/-- C5: on a verified JSON-object body the three required top-level keys
are checked in the order `event`, `timestamp`, `data`, and the first one
absent (in that order) is the field named by the malformed-payload
error. -/
theorem C5_missing_field_order (hm : String → String → String)
    (jl : String → Except String JsonValue) (v : WebhookVerifier) (now : Int)
    (sig : String) (tsArg : StrOrInt) (body did : String) (n : Int)
    (fields : List (String × JsonValue))
    (hco : coerce_timestamp tsArg = .ok n)
    (hv : verify_signature hm v now sig n body = true)
    (hj : jl body = .ok (.obj fields)) :
    (hasKey fields "event" = false →
      verify_and_parse hm jl v now sig tsArg body did =
        .error (.missingField "event")) ∧
    (hasKey fields "event" = true → hasKey fields "timestamp" = false →
      verify_and_parse hm jl v now sig tsArg body did =
        .error (.missingField "timestamp")) ∧
    (hasKey fields "event" = true → hasKey fields "timestamp" = true →
      hasKey fields "data" = false →
      verify_and_parse hm jl v now sig tsArg body did =
        .error (.missingField "data")) := by
  refine ⟨?_, ?_, ?_⟩
  · intro he
    simp [verify_and_parse, hco, hv, hj, pyContains, he]
  · intro he ht
    simp [verify_and_parse, hco, hv, hj, pyContains, he, ht]
  · intro he ht hd
    simp [verify_and_parse, hco, hv, hj, pyContains, he, ht, hd]

/-- Witness for C5 at a concrete input. -/
theorem C5_witness :
    (hasKey [("timestamp", JsonValue.null)] "event" = false →
      verify_and_parse (fun _ _ => "ab")
        (fun _ => .ok (.obj [("timestamp", JsonValue.null)]))
        ⟨"sec", 300⟩ 10 "ab" (.int 5) "b" "d" =
        .error (.missingField "event")) ∧
    (hasKey [("timestamp", JsonValue.null)] "event" = true →
      hasKey [("timestamp", JsonValue.null)] "timestamp" = false →
      verify_and_parse (fun _ _ => "ab")
        (fun _ => .ok (.obj [("timestamp", JsonValue.null)]))
        ⟨"sec", 300⟩ 10 "ab" (.int 5) "b" "d" =
        .error (.missingField "timestamp")) ∧
    (hasKey [("timestamp", JsonValue.null)] "event" = true →
      hasKey [("timestamp", JsonValue.null)] "timestamp" = true →
      hasKey [("timestamp", JsonValue.null)] "data" = false →
      verify_and_parse (fun _ _ => "ab")
        (fun _ => .ok (.obj [("timestamp", JsonValue.null)]))
        ⟨"sec", 300⟩ 10 "ab" (.int 5) "b" "d" =
        .error (.missingField "data")) :=
  C5_missing_field_order (fun _ _ => "ab")
    (fun _ => .ok (.obj [("timestamp", JsonValue.null)]))
    ⟨"sec", 300⟩ 10 "ab" (.int 5) "b" "d" 5 [("timestamp", JsonValue.null)]
    rfl (by decide) rfl

/-- C7: on success the payload's `event`, `timestamp` and `data` fields are
the values bound to those keys in the parsed body, and `delivery_id` is the
caller's argument — for every body, including bodies that carry a
delivery-id-like key of their own. -/
theorem C7_payload_fields (hm : String → String → String)
    (jl : String → Except String JsonValue) (v : WebhookVerifier) (now : Int)
    (sig : String) (tsArg : StrOrInt) (body did : String) (n : Int)
    (fields : List (String × JsonValue)) (ev tv dv : JsonValue)
    (hco : coerce_timestamp tsArg = .ok n)
    (hv : verify_signature hm v now sig n body = true)
    (hj : jl body = .ok (.obj fields))
    (he : pyDictGet fields "event" = some ev)
    (ht : pyDictGet fields "timestamp" = some tv)
    (hd : pyDictGet fields "data" = some dv) :
    verify_and_parse hm jl v now sig tsArg body did = .ok ⟨ev, tv, dv, did⟩ :=
  verify_and_parse_ok hm jl v now sig tsArg body did n fields ev tv dv
    hco hv hj he ht hd

/-- Witness for C7: the spec's end-to-end scenario, with a body that also
binds a `deliveryId` key which the result ignores. -/
theorem C7_witness :
    verify_and_parse (fun _ _ => "ab")
      (fun _ => .ok (.obj
        [("event", .str "contact.created"), ("timestamp", .str "2024-01-15T10:00:00Z"),
         ("data", .obj [("contactId", .str "abc123"), ("emailHash", .str "sha1hash")]),
         ("deliveryId", .str "from-body")]))
      ⟨"sec", 300⟩ 10 "ab" (.int 5) "b" "delivery-123" =
      .ok ⟨.str "contact.created", .str "2024-01-15T10:00:00Z",
        .obj [("contactId", .str "abc123"), ("emailHash", .str "sha1hash")],
        "delivery-123"⟩ :=
  C7_payload_fields (fun _ _ => "ab")
    (fun _ => .ok (.obj
      [("event", .str "contact.created"), ("timestamp", .str "2024-01-15T10:00:00Z"),
       ("data", .obj [("contactId", .str "abc123"), ("emailHash", .str "sha1hash")]),
       ("deliveryId", .str "from-body")]))
    ⟨"sec", 300⟩ 10 "ab" (.int 5) "b" "delivery-123" 5
    [("event", .str "contact.created"), ("timestamp", .str "2024-01-15T10:00:00Z"),
     ("data", .obj [("contactId", .str "abc123"), ("emailHash", .str "sha1hash")]),
     ("deliveryId", .str "from-body")]
    (.str "contact.created") (.str "2024-01-15T10:00:00Z")
    (.obj [("contactId", .str "abc123"), ("emailHash", .str "sha1hash")])
    rfl (by decide) rfl rfl rfl rfl

/-- C8: nothing validates the body's `event` value against the known event
list: every string value, enumerated or not, is accepted and stored raw in
the returned payload. -/
theorem C8_event_unvalidated (hm : String → String → String)
    (jl : String → Except String JsonValue) (v : WebhookVerifier) (now : Int)
    (sig : String) (tsArg : StrOrInt) (body did : String) (n : Int)
    (fields : List (String × JsonValue)) (s : String) (tv dv : JsonValue)
    (hco : coerce_timestamp tsArg = .ok n)
    (hv : verify_signature hm v now sig n body = true)
    (hj : jl body = .ok (.obj fields))
    (he : pyDictGet fields "event" = some (.str s))
    (ht : pyDictGet fields "timestamp" = some tv)
    (hd : pyDictGet fields "data" = some dv) :
    verify_and_parse hm jl v now sig tsArg body did =
      .ok ⟨.str s, tv, dv, did⟩ :=
  verify_and_parse_ok hm jl v now sig tsArg body did n fields (.str s) tv dv
    hco hv hj he ht hd

/-- Witness for C8, with an event name outside the `knownEvents`
enumeration (checked explicitly). -/
theorem C8_witness :
    knownEvents.contains "totally.unknown.event" = false ∧
    verify_and_parse (fun _ _ => "ab")
      (fun _ => .ok (.obj
        [("event", .str "totally.unknown.event"), ("timestamp", .str "t"),
         ("data", .obj [])]))
      ⟨"sec", 300⟩ 10 "ab" (.int 5) "b" "d" =
      .ok ⟨.str "totally.unknown.event", .str "t", .obj [], "d"⟩ :=
  ⟨by decide,
    C8_event_unvalidated (fun _ _ => "ab")
      (fun _ => .ok (.obj
        [("event", .str "totally.unknown.event"), ("timestamp", .str "t"),
         ("data", .obj [])]))
      ⟨"sec", 300⟩ 10 "ab" (.int 5) "b" "d" 5
      [("event", .str "totally.unknown.event"), ("timestamp", .str "t"),
       ("data", .obj [])]
      "totally.unknown.event" (.str "t") (.obj [])
      rfl (by decide) rfl rfl rfl rfl⟩

/-- C9: a string timestamp that `int()` cannot parse makes
`verify_and_parse` fail with the uncontrolled `ValueError` coming from the
coercion itself — for every clock value, HMAC behaviour and `json.loads`
behaviour, so no signature check, clock read or body parse is involved —
and that error is none of the module's own taxonomy errors. -/
theorem C9_int_coercion_error (v : WebhookVerifier) (sig s body did : String)
    (hbad : pyIntOfString s = none) :
    (∀ (hm : String → String → String)
      (jl : String → Except String JsonValue) (now : Int),
      verify_and_parse hm jl v now sig (.str s) body did =
        .error (.intCoercion s)) ∧
    VerifyError.intCoercion s ≠ .invalidSignature ∧
    (∀ d, VerifyError.intCoercion s ≠ .invalidJson d) ∧
    (∀ f, VerifyError.intCoercion s ≠ .missingField f) ∧
    (∀ h, VerifyError.intCoercion s ≠ .missingHeader h) := by
  refine ⟨?_, by simp, by simp, by simp, by simp⟩
  intro hm jl now
  simp [verify_and_parse, coerce_timestamp, hbad]

/-- Witness for C9 at the concrete unparseable timestamp `"abc"`. -/
theorem C9_witness :
    (∀ (hm : String → String → String)
      (jl : String → Except String JsonValue) (now : Int),
      verify_and_parse hm jl ⟨"sec", 300⟩ now "zz" (.str "abc") "b" "d" =
        .error (.intCoercion "abc")) ∧
    VerifyError.intCoercion "abc" ≠ .invalidSignature ∧
    (∀ d, VerifyError.intCoercion "abc" ≠ .invalidJson d) ∧
    (∀ f, VerifyError.intCoercion "abc" ≠ .missingField f) ∧
    (∀ h, VerifyError.intCoercion "abc" ≠ .missingHeader h) :=
  C9_int_coercion_error ⟨"sec", 300⟩ "zz" "abc" "b" "d" (by decide)

/-- C6: `extract_headers` sees headers only through their lowercased names
(conjunct one: any two header maps with the same normalization extract
identically); a missing `x-webhook-signature` or `x-webhook-timestamp` is
reported by name with the signature checked first; the optional event and
delivery-id headers default to the empty string. -/
theorem C6_extract_headers_case_insensitive (headers : List (String × String)) :
    (∀ h2, normalizeHeaders headers = normalizeHeaders h2 →
      extract_headers headers = extract_headers h2) ∧
    (pyDictGet (normalizeHeaders headers) "x-webhook-signature" = none →
      extract_headers headers = .error (.missingHeader "X-Webhook-Signature")) ∧
    (∀ sv, pyDictGet (normalizeHeaders headers) "x-webhook-signature" = some sv →
      sv ≠ "" →
      pyDictGet (normalizeHeaders headers) "x-webhook-timestamp" = none →
      extract_headers headers = .error (.missingHeader "X-Webhook-Timestamp")) ∧
    (∀ sv tv, pyDictGet (normalizeHeaders headers) "x-webhook-signature" = some sv →
      sv ≠ "" →
      pyDictGet (normalizeHeaders headers) "x-webhook-timestamp" = some tv →
      tv ≠ "" →
      pyDictGet (normalizeHeaders headers) "x-webhook-event" = none →
      pyDictGet (normalizeHeaders headers) "x-webhook-delivery-id" = none →
      extract_headers headers = .ok (sv, tv, "", "")) := by
  refine ⟨?_, ?_, ?_, ?_⟩
  · intro h2 hnorm
    simp only [extract_headers]
    rw [hnorm]
  · intro hsig
    simp [extract_headers, pyStrFalsy, hsig]
  · intro sv hsig hsv hts
    simp [extract_headers, pyStrFalsy, hsig, hsv, hts]
  · intro sv tv hsig hsv hts htv hev hdel
    simp [extract_headers, pyStrFalsy, pyOrElse, hsig, hsv, hts, htv, hev, hdel]

/-- Witness for C6: mixed-case headers; the map missing the signature
header fails naming it, and the optional headers default to empty. -/
theorem C6_witness :
    extract_headers [("X-Webhook-Timestamp", "1")] =
      .error (.missingHeader "X-Webhook-Signature") ∧
    extract_headers [("X-Webhook-Signature", "s")] =
      .error (.missingHeader "X-Webhook-Timestamp") ∧
    extract_headers [("X-Webhook-Signature", "s"), ("X-Webhook-Timestamp", "1")] =
      .ok ("s", "1", "", "") :=
  ⟨(C6_extract_headers_case_insensitive [("X-Webhook-Timestamp", "1")]).2.1 rfl,
   (C6_extract_headers_case_insensitive [("X-Webhook-Signature", "s")]).2.2.1
     "s" rfl (by decide) rfl,
   (C6_extract_headers_case_insensitive
     [("X-Webhook-Signature", "s"), ("X-Webhook-Timestamp", "1")]).2.2.2
     "s" "1" rfl (by decide) rfl (by decide) rfl rfl⟩

/-- C10: the required-header check is a truthiness test, so a header that
is present but bound to the empty string triggers the same missing-header
error as an absent one. -/
theorem C10_empty_header_is_missing (headers : List (String × String)) :
    (pyDictGet (normalizeHeaders headers) "x-webhook-signature" = some "" →
      extract_headers headers = .error (.missingHeader "X-Webhook-Signature")) ∧
    (∀ sv, pyDictGet (normalizeHeaders headers) "x-webhook-signature" = some sv →
      sv ≠ "" →
      pyDictGet (normalizeHeaders headers) "x-webhook-timestamp" = some "" →
      extract_headers headers = .error (.missingHeader "X-Webhook-Timestamp")) := by
  refine ⟨?_, ?_⟩
  · intro hsig
    simp [extract_headers, pyStrFalsy, hsig]
  · intro sv hsig hsv hts
    simp [extract_headers, pyStrFalsy, hsig, hsv, hts]

/-- Witness for C10: empty-valued required headers are reported missing. -/
theorem C10_witness :
    extract_headers [("X-Webhook-Signature", "")] =
      .error (.missingHeader "X-Webhook-Signature") ∧
    extract_headers [("X-Webhook-Signature", "s"), ("X-Webhook-Timestamp", "")] =
      .error (.missingHeader "X-Webhook-Timestamp") :=
  ⟨(C10_empty_header_is_missing [("X-Webhook-Signature", "")]).1 rfl,
   (C10_empty_header_is_missing
     [("X-Webhook-Signature", "s"), ("X-Webhook-Timestamp", "")]).2
     "s" rfl (by decide) rfl⟩
